import Mathlib

/-!
Verification of the NiMARE dataset container (src/nimare/dataset/dataset.py)
against its natural-language specification.

The embedding models the `Dataset` class: its constructor stores the JSON
value parsed from the input file; `has_data` splits a requirement string on
the literal token " AND " and performs defaulted dictionary lookups inside a
try/except; `get` filters with `has_data` when an algorithm is supplied;
`get_studies`, `get_metadata`, `get_images` and `get_coordinates` are
`pass`-bodied stubs returning None; `save` pickles the instance, gzipping
exactly when the filename ends with the character 'z'; `load` unpickles,
gunzipping under the same suffix convention, and raises IOError when the
decoded object is not a `Dataset` instance.

External libraries (json, pickle, gzip) are modelled at the level of their
contracts: a parsed JSON value is a `Json` tree, a pickle of an object is a
symbolic byte stream tagged with the object it serializes, and gzip is a
wrapper on such a stream.  Python `None` is `Option.none`; a raised exception
is `Except.error` carrying a `PyErr` naming the raise site.
-/

/-- Model of the values produced by Python's json.load: null, booleans,
numbers (restricted to integers, which covers the coordinate and metadata
values exercised here), strings, arrays and objects.  An object is an
association list of string keys in file order. -/
inductive Json where
  | null : Json
  | bool (b : Bool) : Json
  | num (n : Int) : Json
  | str (s : String) : Json
  | arr (elems : List Json) : Json
  | obj (fields : List (String × Json)) : Json

/-- Lookup of a key in a JSON object's field list, returning the first
binding; mirrors Python dict indexing on objects produced by json.load. -/
def jsonLookup : Json → String → Option Json
  | Json.obj fields, k => (fields.find? (fun p => p.1 == k)).map (fun p => p.2)
  | _, _ => none

/-- Exceptions the modelled code can raise, one constructor per raise site:
`nope` is the bare `raise Exception('Nope')` in has_data; `attributeError`
is Python's AttributeError from calling a missing method; `typeMismatch` is
the IOError raised by Dataset.load when the unpickled object is not a
Dataset; `formatError` is the error raised by gzip/pickle when the byte
stream is not a well-formed (or is a truncated) serialization. -/
inductive PyErr where
  | nope : PyErr
  | attributeError : PyErr
  | typeMismatch : PyErr
  | formatError : PyErr
deriving DecidableEq, Repr

/-- The Dataset class.  Its entire pickled state is the attribute
`data`, the JSON value stored by the constructor. -/
structure Dataset where
  data : Json

/-- Models Dataset.__init__: `self.data = json.load(fo)`.  The parsed value
is stored unchanged; no validation and no defaulting of absent keys. -/
def Dataset.init (parsed : Json) : Dataset := ⟨parsed⟩

/-- An object as deserialized by pickle.load: either a pickled Dataset
instance, or any other Python object (represented by its JSON-like value,
e.g. a plain mapping). -/
inductive PObj where
  | dataset (d : Dataset) : PObj
  | other (j : Json) : PObj

/-- Contents of a snapshot file, at the granularity the claims need:
a complete pickle stream of an object, a gzip-compressed such stream, an
empty file, or a truncated (incomplete) stream whose terminating frame is
missing.  pickle.dump emits a single STOP-terminated stream, so a complete
stream is distinguishable from a truncated one. -/
inductive ByteStream where
  | pickled (o : PObj) : ByteStream
  | gzipped (o : PObj) : ByteStream
  | empty : ByteStream
  | truncated : ByteStream

/-- Models the suffix test `filename.endswith('z')` of Dataset.save and
Dataset.load: the final character of the filename is 'z'.  Stated over the
string's character list so that concrete instances evaluate. -/
def endsInZ (s : String) : Bool := s.data.getLast? == some 'z'

/-- Models Dataset.save: pickle the instance to the file, through
gzip.GzipFile when the filename ends with 'z', through a plain file
otherwise.  The result is the final content of the file at `filename`. -/
def Dataset.save (self : Dataset) (filename : String) : ByteStream :=
  if endsInZ filename then
    ByteStream.gzipped (PObj.dataset self)
  else
    ByteStream.pickled (PObj.dataset self)

/-- Contents visible at the target path while Dataset.save runs.  The source
opens `filename` itself in mode 'wb' (directly, or via GzipFile), which
truncates any existing file at once; the pickle bytes then appear
incrementally before the stream is complete.  There is no temporary file
and no rename: the intermediate states are visible at the target path. -/
def Dataset.saveStates (self : Dataset) (filename : String) : List ByteStream :=
  [ByteStream.empty, ByteStream.truncated, self.save filename]

/-- Deserialization step of Dataset.load: when the filename ends with 'z'
the file is read through gzip.GzipFile then unpickled, otherwise unpickled
directly.  A stream that is not of the expected form (wrong wrapper, empty,
or truncated) makes gzip or pickle raise, modelled as `formatError`. -/
def unpickleFile (filename : String) (content : ByteStream) : Except PyErr PObj :=
  if endsInZ filename then
    match content with
    | ByteStream.gzipped o => Except.ok o
    | _ => Except.error PyErr.formatError
  else
    match content with
    | ByteStream.pickled o => Except.ok o
    | _ => Except.error PyErr.formatError

/-- Models Dataset.load: deserialize the file, then check
`isinstance(dataset, Dataset)` and raise IOError (here `typeMismatch`)
when the decoded object is not a Dataset; otherwise return it. -/
def Dataset.load (filename : String) (content : ByteStream) : Except PyErr Dataset :=
  match unpickleFile filename content with
  | Except.error e => Except.error e
  | Except.ok (PObj.dataset d) => Except.ok d
  | Except.ok (PObj.other _) => Except.error PyErr.typeMismatch

/-- Models one loop iteration of Dataset.has_data:
`try: self.data.get(ds, None) / except: raise Exception('Nope')`.
On a dict (a JSON object) the defaulted lookup `.get(ds, None)` is total
and returns the value or None; on any other stored value the attribute
lookup of `.get` raises, and the bare except rethrows Exception('Nope'). -/
def attemptGet (data : Json) (ds : String) : Except PyErr (Option Json) :=
  match data with
  | Json.obj fields => Except.ok ((fields.find? (fun p => p.1 == ds)).map (fun p => p.2))
  | _ => Except.error PyErr.nope

/-- Models Dataset.has_data: split the requirement on the literal token
" AND ", run the try/except lookup for each clause discarding the result,
and fall off the end of the function, i.e. return Python None (no boolean
is ever produced, and no return statement exists). -/
def Dataset.has_data (self : Dataset) (datStr : String) : Except PyErr (Option Bool) :=
  let clauses := datStr.splitOn " AND "
  (clauses.foldlM (fun _ ds => (attemptGet self.data ds).map (fun _ => ())) ()).map
    (fun _ => none)

/-- The algorithm argument of Dataset.get: an object carrying a req_data
requirement string. -/
structure Algorithm where
  req_data : String
deriving DecidableEq, Repr

/-- Models Dataset.get.  With no (or a falsy) algorithm the body is skipped
and the function returns None.  With an algorithm, the comprehension
`[stud for stud in self.data if stud.has_data(req_data)]` iterates the
stored value: over a dict it yields the string keys, over a list its
elements; none of these values is a Dataset, so the attribute access
`stud.has_data` raises AttributeError on the first element, while an empty
collection completes the (discarded) comprehension and the function again
returns None.  Iterating a non-iterable stored value raises at once;
iterating a string yields its characters, which also lack has_data. -/
def Dataset.get (self : Dataset) (search : String) (algorithm : Option Algorithm) :
    Except PyErr (Option (List Json)) :=
  match algorithm with
  | none => Except.ok none
  | some _ =>
    match self.data with
    | Json.obj fields =>
      if fields.isEmpty then Except.ok none else Except.error PyErr.attributeError
    | Json.arr elems =>
      if elems.isEmpty then Except.ok none else Except.error PyErr.attributeError
    | Json.str s =>
      if s.isEmpty then Except.ok none else Except.error PyErr.attributeError
    | _ => Except.error PyErr.attributeError

/-- Models Dataset.get_studies: a `pass` body, returning None and raising
nothing. -/
def Dataset.get_studies (self : Dataset) : Except PyErr (Option Json) :=
  Except.ok none

/-- Models Dataset.get_metadata: a `pass` body, returning None and raising
nothing. -/
def Dataset.get_metadata (self : Dataset) : Except PyErr (Option Json) :=
  Except.ok none

/-- Models Dataset.get_images: a `pass` body, returning None and raising
nothing. -/
def Dataset.get_images (self : Dataset) : Except PyErr (Option Json) :=
  Except.ok none

/-- Models Dataset.get_coordinates: a `pass` body, returning None and
raising nothing. -/
def Dataset.get_coordinates (self : Dataset) : Except PyErr (Option Json) :=
  Except.ok none

/-! ## Helper lemmas -/

/-- When the stored data is a JSON object (a Python dict), every clause
lookup in has_data succeeds, so the whole loop completes with no error. -/
theorem hasDataObj (fields : List (String × Json)) (datStr : String) :
    Dataset.has_data ⟨Json.obj fields⟩ datStr = Except.ok none := by
  unfold Dataset.has_data
  generalize datStr.splitOn " AND " = clauses
  induction clauses with
  | nil => rfl
  | cons c cs ih =>
    simp only [List.foldlM_cons, attemptGet, Except.map, bind, Except.bind] at ih ⊢
    exact ih

/-! ## Claim theorems -/

/-- C1: loading a snapshot previously saved at the same path yields a
dataset structurally equal to the original, for every dataset and every
filename, hence both with and without the compressed-suffix convention. -/
theorem load_save_roundtrip (d : Dataset) (filename : String) :
    Dataset.load filename (d.save filename) = Except.ok d := by
  unfold Dataset.load Dataset.save unpickleFile
  cases h : endsInZ filename <;> simp [h]

/-- C2: whenever deserializing a snapshot file yields an object that is not
a Dataset instance (e.g. a plain mapping), Dataset.load raises the
type-mismatch error (the IOError of the isinstance check) instead of
returning the decoded object. -/
theorem load_rejects_non_dataset (filename : String) (content : ByteStream) (j : Json)
    (h : unpickleFile filename content = Except.ok (PObj.other j)) :
    Dataset.load filename content = Except.error PyErr.typeMismatch := by
  unfold Dataset.load
  rw [h]

/-- Witness for C2: a raw pickle of a plain mapping at an uncompressed
path is rejected with the type-mismatch error. -/
theorem load_rejects_non_dataset_witness :
    Dataset.load "snapshot.pkl" (ByteStream.pickled (PObj.other (Json.obj []))) =
      Except.error PyErr.typeMismatch :=
  load_rejects_non_dataset "snapshot.pkl" (ByteStream.pickled (PObj.other (Json.obj [])))
    (Json.obj []) (by rfl)

/-- C3: on a record lacking the field named by the requirement clause
"bogus_field", has_data completes with Python None and raises nothing at
all — in particular no UnknownRequirementError naming the clause exists
anywhere in the code. -/
theorem has_data_unknown_clause_silent :
    Dataset.has_data ⟨Json.obj [("coordinates", Json.arr [])]⟩ "bogus_field" =
      Except.ok none :=
  hasDataObj [("coordinates", Json.arr [])] "bogus_field"

/-- C4: on data containing both fields demanded by the requirement
"coordinates AND z", has_data still evaluates to Python None — it never
produces the boolean the claim requires. -/
theorem has_data_returns_none_not_bool :
    Dataset.has_data
      ⟨Json.obj [("coordinates", Json.arr [Json.arr [Json.num 1, Json.num 2, Json.num 3]]),
                 ("z", Json.str "s1_z.nii")]⟩ "coordinates AND z" = Except.ok none :=
  hasDataObj _ "coordinates AND z"

/-- C5: on a populated dataset, Dataset.get with an algorithm whose
requirement a study satisfies raises AttributeError (iterating the dict
yields string keys, which lack has_data), and on a dataset with no studies
it returns Python None — in neither case is the sequence of matching
records returned. -/
theorem get_never_returns_selection :
    Dataset.get
      ⟨Json.obj [("S1", Json.obj [("coordinates",
          Json.arr [Json.arr [Json.num 1, Json.num 2, Json.num 3]])])]⟩
      "" (some ⟨"coordinates"⟩) = Except.error PyErr.attributeError
    ∧ Dataset.get ⟨Json.obj []⟩ "" (some ⟨"coordinates"⟩) = Except.ok none := by
  exact ⟨rfl, rfl⟩

/-- C6: Dataset.save produces a gzip-compressed pickle stream exactly when
the filename ends in 'z' and a raw pickle stream exactly when it does not,
and Dataset.load's deserialization accepts (i.e. decompresses) a gzip
stream exactly when the filename ends in 'z' and a raw stream exactly when
it does not. -/
theorem save_load_compression_iff (d : Dataset) (filename : String) :
    (d.save filename = ByteStream.gzipped (PObj.dataset d) ↔ endsInZ filename = true)
    ∧ (d.save filename = ByteStream.pickled (PObj.dataset d) ↔ endsInZ filename = false)
    ∧ (unpickleFile filename (ByteStream.gzipped (PObj.dataset d)) =
        Except.ok (PObj.dataset d) ↔ endsInZ filename = true)
    ∧ (unpickleFile filename (ByteStream.pickled (PObj.dataset d)) =
        Except.ok (PObj.dataset d) ↔ endsInZ filename = false) := by
  unfold Dataset.save unpickleFile
  cases h : endsInZ filename <;> simp [h]

/-- C7 counterexample: loading a structured file whose study "S1" lacks the
"images" key succeeds, but the stored record's "images" lookup yields
nothing — not the empty mapping the claim promises. -/
theorem missing_images_key_not_defaulted :
    jsonLookup (Dataset.init (Json.obj [("S1",
        Json.obj [("metadata", Json.obj []), ("coordinates", Json.arr [])])])).data "S1" =
      some (Json.obj [("metadata", Json.obj []), ("coordinates", Json.arr [])])
    ∧ jsonLookup (Json.obj [("metadata", Json.obj []), ("coordinates", Json.arr [])])
        "images" ≠ some (Json.obj []) := by
  refine ⟨by rfl, ?_⟩
  intro h
  simp [jsonLookup] at h

/-- C7 amended: loading stores each study record exactly as parsed, with no
defaulting: a record whose field list has no "images" binding is admitted
unchanged and its "images" lookup yields nothing (rather than an error, and
rather than an empty mapping). -/
theorem missing_images_key_stored_unchanged
    (studies : List (String × Json)) (sid : String) (fs : List (String × Json))
    (hrec : jsonLookup (Json.obj studies) sid = some (Json.obj fs))
    (himg : fs.find? (fun p => p.1 == "images") = none) :
    jsonLookup (Dataset.init (Json.obj studies)).data sid = some (Json.obj fs)
    ∧ jsonLookup (Json.obj fs) "images" = none := by
  refine ⟨hrec, ?_⟩
  simp [jsonLookup, himg]

/-- Witness for the amended C7: a concrete one-study file with no "images"
key loads unchanged and the record's "images" lookup yields nothing. -/
theorem missing_images_key_stored_unchanged_witness :
    jsonLookup (Dataset.init (Json.obj [("S1", Json.obj [("metadata", Json.obj [])])])).data
      "S1" = some (Json.obj [("metadata", Json.obj [])])
    ∧ jsonLookup (Json.obj [("metadata", Json.obj [])]) "images" = none :=
  missing_images_key_stored_unchanged [("S1", Json.obj [("metadata", Json.obj [])])] "S1"
    [("metadata", Json.obj [])] (by rfl) (by rfl)

/-- C8: the four public query operations are pass-bodied stubs: each one
silently returns Python None on every dataset, raising nothing — no
NotImplementedError-class failure exists in the code. -/
theorem query_stubs_silently_return_none (d : Dataset) :
    d.get_studies = Except.ok none
    ∧ d.get_metadata = Except.ok none
    ∧ d.get_images = Except.ok none
    ∧ d.get_coordinates = Except.ok none :=
  ⟨rfl, rfl, rfl, rfl⟩

/-- C9 counterexample: saving over a prior snapshot at "ds.pkl" passes
through the truncated-to-empty state, which is visible at the target path;
a failure there leaves a file that is neither the prior snapshot nor the
completed new one, so visibility of the written artifact is not
all-or-nothing. -/
theorem save_not_all_or_nothing :
    ByteStream.empty ∈ (Dataset.init (Json.obj [("S1", Json.obj [])])).saveStates "ds.pkl"
    ∧ ByteStream.empty ≠ (Dataset.init (Json.obj [])).save "ds.pkl"
    ∧ ByteStream.empty ≠ (Dataset.init (Json.obj [("S1", Json.obj [])])).save "ds.pkl" := by
  refine ⟨by simp [Dataset.saveStates], ?_, ?_⟩ <;>
  · intro h
    simp [Dataset.save, show endsInZ "ds.pkl" = false from rfl] at h

/-- C9 amended: Dataset.save writes directly to the target path (truncate,
then stream the pickle; no temporary file and no rename), so a mid-write
failure leaves an empty or truncated file there and can destroy a prior
snapshot; Dataset.load, however, fails with an error on every such empty or
truncated file rather than accepting it as a dataset. -/
theorem load_rejects_partial_write (filename : String) (s : ByteStream)
    (h : s = ByteStream.empty ∨ s = ByteStream.truncated) (d : Dataset) :
    Dataset.load filename s ≠ Except.ok d := by
  unfold Dataset.load unpickleFile
  rcases h with h | h <;> subst h <;> cases hz : endsInZ filename <;> simp [hz]

/-- Witness for the amended C9: loading the empty file left by a failed
save at "ds.pkl" does not yield the dataset that was being saved. -/
theorem load_rejects_partial_write_witness :
    Dataset.load "ds.pkl" ByteStream.empty ≠
      Except.ok (Dataset.init (Json.obj [("S1", Json.obj [])])) :=
  load_rejects_partial_write "ds.pkl" ByteStream.empty (Or.inl rfl)
    (Dataset.init (Json.obj [("S1", Json.obj [])]))

/-- C10: whenever the stored data is a mapping (a parsed JSON object),
has_data completes for every requirement string with no exception — the
defaulted dict lookup is total, so the catch-and-rethrow branch is
unreachable — and it produces Python None, never a boolean. -/
theorem has_data_total_and_returns_none (fields : List (String × Json)) (datStr : String) :
    Dataset.has_data ⟨Json.obj fields⟩ datStr = Except.ok none :=
  hasDataObj fields datStr
